import Mathlib

/-
Shallow embedding of the Morpheus service library (src/lib.go).

Morpheus is a service-registry and RPC layer over a Redis-like key/value
store with publish/subscribe.  The embedding below models:
  * the in-process registry `Services` (a Go two-level map
    `map[service_name]map[service_id]*Service`) as a function
    `String → Option (String → Option Service)`; indexing a missing outer
    key behaves like indexing a nil map (yields `none`), as in Go;
  * Go channels only through their nil-ness (`Option Unit`): the zero value
    of a `chan` field is nil, and `close` on a nil channel panics, which we
    model as `Except.error`;
  * JSON marshalling of `Message` (all fields tagged `omitempty`) as a
    finite association list of field name to field value, in struct-field
    order; unmarshalling reads each field back, defaulting to the Go zero
    value when absent;
  * effectful operations by returning their externally visible effects:
    `UpdatePresence` returns the single key/value/TTL write it performs,
    and the messaging engine returns the constructed `Message` together with
    the list of (topic, serialized message) publications and topic
    subscriptions it issues;
  * sources of nondeterminism (random ids, the global RNG, the clock, the
    machine's outbound IP) as explicit parameters.
-/

namespace Morpheus

/-- Go `strings.HasPrefix(s, pre)`: `pre` is a prefix of `s`.
Modelled on the character lists underlying the strings. -/
def hasPrefix (s pre : String) : Bool := pre.data.isPrefixOf s.data

/-- Value of a serialized JSON field of a `Message`: either an integer
(`Timestamp`) or a string (all the other fields; the opaque `Payload` is
carried as its serialized form). -/
inductive JField where
  | jint : Int → JField
  | jstr : String → JField
deriving DecidableEq

/-- The `Message` struct of src/lib.go.  `Payload` is `interface{}` in Go
with the nil payload as zero value; it is modelled as an `Option` of an
opaque (serialized) value. -/
structure Message where
  Timestamp : Int
  MsgId : String
  ResponseChannel : String
  Channel : String
  Route : String
  From : String
  To : String
  Payload : Option String
deriving DecidableEq

/-- Go `json.Marshal` on `Message`: every field carries `omitempty`, so a
field is emitted exactly when it differs from its zero value, in struct
declaration order with its json tag as key. -/
def Message.Json (m : Message) : List (String × JField) :=
  (if m.Timestamp ≠ 0 then [("timestamp", JField.jint m.Timestamp)] else []) ++
  (if m.MsgId ≠ "" then [("msg_id", JField.jstr m.MsgId)] else []) ++
  (if m.ResponseChannel ≠ "" then [("response_channel", JField.jstr m.ResponseChannel)] else []) ++
  (if m.Channel ≠ "" then [("channel", JField.jstr m.Channel)] else []) ++
  (if m.Route ≠ "" then [("route", JField.jstr m.Route)] else []) ++
  (if m.From ≠ "" then [("from", JField.jstr m.From)] else []) ++
  (if m.To ≠ "" then [("to", JField.jstr m.To)] else []) ++
  (match m.Payload with
   | some p => [("payload", JField.jstr p)]
   | none => [])

/-- Go `json.Unmarshal` of a JSON object into a `Message`: each field takes
the value found under its json tag, or the Go zero value when the key is
absent (or of the wrong shape). -/
def jsonUnmarshal (obj : List (String × JField)) : Message where
  Timestamp := match obj.lookup "timestamp" with
    | some (JField.jint i) => i
    | _ => 0
  MsgId := match obj.lookup "msg_id" with
    | some (JField.jstr s) => s
    | _ => ""
  ResponseChannel := match obj.lookup "response_channel" with
    | some (JField.jstr s) => s
    | _ => ""
  Channel := match obj.lookup "channel" with
    | some (JField.jstr s) => s
    | _ => ""
  Route := match obj.lookup "route" with
    | some (JField.jstr s) => s
    | _ => ""
  From := match obj.lookup "from" with
    | some (JField.jstr s) => s
    | _ => ""
  To := match obj.lookup "to" with
    | some (JField.jstr s) => s
    | _ => ""
  Payload := match obj.lookup "payload" with
    | some (JField.jstr s) => some s
    | _ => none

/-- A `ServiceRoute` of src/lib.go.  The `Handler` field is a Go function
value (`MessageHandler`); only its nil-ness is ever observed by the code,
so it is modelled as `Option Unit`. -/
structure ServiceRoute where
  Route : String
  Handler : Option Unit
deriving DecidableEq, Inhabited

/-- The `ServiceRoutes` slice of src/lib.go. -/
abbrev ServiceRoutes := List ServiceRoute

/-- Go `ServiceRoutes.Len`. -/
def ServiceRoutes.Len (s : ServiceRoutes) : Nat := s.length

/-- Go `ServiceRoutes.Less(i, j)`: `len(s[i].Route) > len(s[j].Route)`
(descending route length).  Defined in the source but never invoked. -/
def ServiceRoutes.Less (s : ServiceRoutes) (i j : Nat) : Bool :=
  decide ((s.getD j default).Route.length < (s.getD i default).Route.length)

/-- A stable sort of a route table in the order induced by
`ServiceRoutes.Less` (descending route length); the source defines the
comparator but never reaches any sort that applies it. -/
def sortRoutes (routes : ServiceRoutes) : ServiceRoutes :=
  routes.mergeSort (fun a b => b.Route.length ≤ a.Route.length)

/-- The `Service` struct of src/lib.go.  `LivenessChannel` is a Go
`chan bool` whose zero value is nil; it is modelled by its nil-ness. -/
structure Service where
  Id : String
  Name : String
  IpAddress : String
  Port : Int
  Routes : ServiceRoutes
  LivenessChannel : Option Unit
deriving DecidableEq

/-- Go `Service.Key`: `fmt.Sprintf("morpheus:service:%s:%s", s.Name, s.Id)`. -/
def Service.Key (s : Service) : String :=
  "morpheus:service:" ++ s.Name ++ ":" ++ s.Id

/-- Go `Service.getBaseKey`: `fmt.Sprintf("morpheus:service:%s", s.Name)`. -/
def Service.getBaseKey (s : Service) : String :=
  "morpheus:service:" ++ s.Name

/-- Go `Service.Match(path)`: scans the route table and returns true as soon
as one route's `Route` string is a prefix of `path`. -/
def Service.Match (s : Service) (path : String) : Bool :=
  s.Routes.any (fun route => hasPrefix path route.Route)

/-- The `Services` registry of src/lib.go:
`map[service_name]map[service_id]*Service`.  A Go map is modelled as a
function to `Option`; a missing outer name behaves like a nil inner map. -/
def Services := String → Option (String → Option Service)

/-- The empty registry (a fresh `make(Services)`). -/
def Services.empty : Services := fun _ => none

/-- Go double indexing `s[name][id]`: indexing a missing outer key yields
the nil inner map, and indexing a nil map yields nil. -/
def Services.lookup (s : Services) (name id : String) : Option Service :=
  match s name with
  | some inner => inner id
  | none => none

/-- Go `Services.Add(svc)`: creates the inner map for `svc.Name` when
absent, then stores `svc` under `(svc.Name, svc.Id)`. -/
def Services.Add (s : Services) (svc : Service) : Services :=
  fun n =>
    if n = svc.Name then
      some (fun i =>
        if i = svc.Id then some svc
        else
          match s svc.Name with
          | some inner => inner i
          | none => none)
    else s n

/-- Go `Services.Remove(svc)`: first executes `close(svc.LivenessChannel)` —
which panics when the channel is nil — then deletes the `(Name, Id)` entry.
The panic is modelled as `Except.error`; deleting from a missing inner map
is a no-op, as `delete` on a nil Go map is. -/
def Services.Remove (s : Services) (svc : Service) : Except String Services :=
  match svc.LivenessChannel with
  | none => Except.error "close of nil channel"
  | some _ =>
    Except.ok (fun n =>
      if n = svc.Name then
        match s n with
        | some inner => some (fun i => if i = svc.Id then none else inner i)
        | none => none
      else s n)

/-- Go `Morpheus.serviceExists(name, id)`: `m.Services[name][id] != nil`. -/
def serviceExists (s : Services) (name id : String) : Bool :=
  (Services.lookup s name id).isSome

/-- Go `Morpheus.RegisterService(name, port, routes, handler)` restricted to
its registry-visible behavior.  The freshly generated random id and the
machine's outbound IP address are passed explicitly.  Fails when
`(name, svcId)` already exists; otherwise builds the `Service` — whose
`LivenessChannel` field is never initialized, hence nil — and adds it to the
registry.  (The subscription loop, heartbeat scheduling and presence writes
it also triggers are modelled separately.) -/
def RegisterService (s : Services) (name : String) (port : Int)
    (routes : ServiceRoutes) (svcId ipAddress : String) :
    Except String (Service × Services) :=
  if serviceExists s name svcId then Except.error "service already exists"
  else
    let svc : Service :=
      { Id := svcId, Name := name, IpAddress := ipAddress, Port := port,
        Routes := routes, LivenessChannel := none }
    Except.ok (svc, Services.Add s svc)

/-- Go `Morpheus.DeleteService(svc)`: `delete(m.Services, svc.Id)` — a
deletion from the TOP-LEVEL map, keyed by the service id. -/
def DeleteService (s : Services) (svc : Service) : Services :=
  fun n => if n = svc.Id then none else s n

/-- A single Redis `SET key value TTL` write. -/
structure KVWrite where
  key : String
  value : String
  ttl : Nat
deriving DecidableEq

/-- Go `DefaultTTL = 5 * time.Second`, in seconds. -/
def DefaultTTL : Nat := 5

/-- Go `Morpheus.UpdatePresence(svc)`: one Redis `Set` of the key
`svc.Key() + ":presence"` to the service id with TTL `DefaultTTL`. -/
def UpdatePresence (svc : Service) : KVWrite :=
  { key := Service.Key svc ++ ":presence", value := svc.Id, ttl := DefaultTTL }

/-- Go `Morpheus.ResolveService(path)`, parametrized by the list of live
services returned by `ListServices()` and by the value `r` of the global
`rand.Int()` (non-negative).  Filters to the services matching `path` and
returns the one at index `r % len(out)`, or an error when none match. -/
def ResolveService (svcs : List Service) (path : String) (r : Nat) :
    Option Service :=
  let out := svcs.filter (fun svc => Service.Match svc path)
  if out.length > 0 then out[r % out.length]? else none

/-- Externally visible result of one call to the messaging engine: the
constructed message, the (topic, serialized body) publications performed,
and the response topics subscribed to. -/
structure MessageEffects where
  message : Message
  publishes : List (String × List (String × JField))
  subscribes : List String
deriving DecidableEq

/-- Go `Morpheus.Message(channel, from, to, route, payload, responseTo,
retch)`.  The fresh random `MsgId` and the timestamp are passed explicitly.
When `responseTo` is nil the call is an originating request: it sets
`ResponseChannel` to `"<channel>:response:<msgId>"` and subscribes to that
topic (spawning the one-shot waiter feeding `retch`, not modelled further).
The serialized message is published to `channel` in either case. -/
def MessageCall (channel from_ to_ route : String) (payload : Option String)
    (responseTo : Option String) (msgId : String) (timestamp : Int) :
    MessageEffects :=
  let message : Message :=
    { Timestamp := timestamp, From := from_, To := to_, Payload := payload,
      Channel := channel, MsgId := msgId, Route := route,
      ResponseChannel :=
        if responseTo.isNone then channel ++ ":response:" ++ msgId else "" }
  { message := message
    publishes := [(channel, Message.Json message)]
    subscribes := if responseTo.isNone then [message.ResponseChannel] else [] }

/-- Go `Morpheus.Respond(msg, payload)`:
`m.Message(msg.ResponseChannel, msg.To, msg.From, msg.Route, payload,
&msg.ResponseChannel, nil)` — a reply, so `responseTo` is non-nil. -/
def Respond (msg : Message) (payload : Option String) (msgId : String)
    (timestamp : Int) : MessageEffects :=
  MessageCall msg.ResponseChannel msg.To msg.From msg.Route payload
    (some msg.ResponseChannel) msgId timestamp

/-- Go `Morpheus.RPC(from, service, route, payload)`:
`m.Message("rpc", from, service.Key(), route, payload, nil, retch)`. -/
def RPC (from_ : String) (service : Service) (route : String)
    (payload : Option String) (msgId : String) (timestamp : Int) :
    MessageEffects :=
  MessageCall "rpc" from_ (Service.Key service) route payload none msgId
    timestamp

/-- Go `Morpheus.RPCWithTimeout(from, service, route, payload, timeout)`:
`m.Message(service.Key(), from, service.Key(), route, payload, nil, retch)`
followed by a timer goroutine pushing nil to `retch` after `timeout`
(the timer is a real-time effect outside this embedding). -/
def RPCWithTimeout (from_ : String) (service : Service) (route : String)
    (payload : Option String) (timeout : Nat) (msgId : String)
    (timestamp : Int) : MessageEffects :=
  MessageCall (Service.Key service) from_ (Service.Key service) route payload
    none msgId timestamp

/-- A concrete service instance used as a test fixture. -/
def svcAlpha : Service :=
  { Id := "id1", Name := "alpha", IpAddress := "10.0.0.1", Port := 80,
    Routes := [{ Route := "/a", Handler := none }], LivenessChannel := none }

/-- A second concrete service fixture, with two routes. -/
def svcBeta : Service :=
  { Id := "id2", Name := "beta", IpAddress := "10.0.0.2", Port := 81,
    Routes := [{ Route := "/b", Handler := none },
               { Route := "/b/long", Handler := none }],
    LivenessChannel := none }

/-- A concrete fully populated message fixture. -/
def msgFull : Message :=
  { Timestamp := 17, MsgId := "m1", ResponseChannel := "rpc:response:m1",
    Channel := "rpc", Route := "/a", From := "caller", To := "callee",
    Payload := some "hello" }

/-- A concrete all-zero message fixture. -/
def msgZero : Message :=
  { Timestamp := 0, MsgId := "", ResponseChannel := "", Channel := "",
    Route := "", From := "", To := "", Payload := none }

/-- C3: a call `Message(channel, from, to, route, payload, nil, retch)` with
`responseTo` nil (an originating request) produces a message whose
`ResponseChannel` is `"<channel>:response:<msgId>"`, and publishes exactly
the serialized message to the topic `channel`; moreover the publication to
`channel` happens for every value of `responseTo`, i.e. whether or not a
response is awaited. -/
theorem MessageCall_request_spec (channel from_ to_ route : String)
    (payload : Option String) (msgId : String) (ts : Int) :
    (MessageCall channel from_ to_ route payload none msgId ts).message.ResponseChannel
        = channel ++ ":response:" ++ msgId ∧
    (MessageCall channel from_ to_ route payload none msgId ts).publishes
        = [(channel,
            Message.Json (MessageCall channel from_ to_ route payload none msgId ts).message)] ∧
    ∀ responseTo : Option String,
      (MessageCall channel from_ to_ route payload responseTo msgId ts).publishes
        = [(channel,
            Message.Json (MessageCall channel from_ to_ route payload responseTo msgId ts).message)] := by
  refine ⟨rfl, rfl, fun responseTo => rfl⟩

/-- C4: `Respond(msg, payload)` publishes exactly one reply, to the topic
`msg.ResponseChannel`; the reply's `From` is `msg.To`, its `To` is
`msg.From`, and its `ResponseChannel` is empty (omitted). -/
theorem Respond_spec (msg : Message) (payload : Option String)
    (msgId : String) (ts : Int) :
    (Respond msg payload msgId ts).message.From = msg.To ∧
    (Respond msg payload msgId ts).message.To = msg.From ∧
    (Respond msg payload msgId ts).message.ResponseChannel = "" ∧
    (Respond msg payload msgId ts).publishes
      = [(msg.ResponseChannel,
          Message.Json (Respond msg payload msgId ts).message)] := by
  refine ⟨rfl, rfl, rfl, rfl⟩

/-- C5 counterexample: at a concrete input, `RPC` and `RPCWithTimeout` do
NOT publish their request to the same channel: `RPC` publishes to the
literal channel `"rpc"` while `RPCWithTimeout` publishes to
`service.Key()`. -/
theorem RPC_RPCWithTimeout_counterexample :
    ¬ ((RPC "caller" svcAlpha "/a" (some "p") "m1" 7).publishes.map Prod.fst
       = (RPCWithTimeout "caller" svcAlpha "/a" (some "p") 3 "m1" 7).publishes.map Prod.fst) := by
  decide

/-- C5 amended: `RPC` and `RPCWithTimeout` construct request messages with
the same `From`, `To`, `Route` and `Payload` (both as originating requests),
but publish them to different channels: `RPC` publishes to the literal
channel `"rpc"`, while `RPCWithTimeout` publishes to `service.Key()`
(`RPCWithTimeout` additionally arms a timer that later pushes nil to the
return channel). -/
theorem RPC_RPCWithTimeout_amended (from_ : String) (service : Service)
    (route : String) (payload : Option String) (timeout : Nat)
    (msgId : String) (ts : Int) :
    (RPC from_ service route payload msgId ts).message.From
        = (RPCWithTimeout from_ service route payload timeout msgId ts).message.From ∧
    (RPC from_ service route payload msgId ts).message.To
        = (RPCWithTimeout from_ service route payload timeout msgId ts).message.To ∧
    (RPC from_ service route payload msgId ts).message.Route
        = (RPCWithTimeout from_ service route payload timeout msgId ts).message.Route ∧
    (RPC from_ service route payload msgId ts).message.Payload
        = (RPCWithTimeout from_ service route payload timeout msgId ts).message.Payload ∧
    (RPC from_ service route payload msgId ts).publishes.map Prod.fst = ["rpc"] ∧
    (RPCWithTimeout from_ service route payload timeout msgId ts).publishes.map Prod.fst
        = [Service.Key service] := by
  refine ⟨rfl, rfl, rfl, rfl, rfl, rfl⟩

/-- C6 counterexample: at a concrete service (name `"alpha"`, id `"id1"`),
the presence refresh does not write the key
`service:alpha:id1:presence` claimed by the spec: the key it writes carries
the `morpheus:` prefix. -/
theorem UpdatePresence_counterexample :
    (UpdatePresence svcAlpha).key ≠ "service:alpha:id1:presence" := by
  decide

/-- C6 amended: each presence refresh performs exactly one write, of the key
`morpheus:service:<name>:<id>:presence`, with value the service id and a TTL
of 5 seconds. -/
theorem UpdatePresence_amended (svc : Service) :
    UpdatePresence svc
      = { key := "morpheus:service:" ++ svc.Name ++ ":" ++ svc.Id ++ ":presence",
          value := svc.Id, ttl := 5 } := by
  rfl

/-- Helper: `List.any` only depends on the multiset of elements. -/
theorem any_eq_of_perm {α : Type} (f : α → Bool) {l1 l2 : List α}
    (h : l1.Perm l2) : l1.any f = l2.any f := by
  cases hl : l2.any f
  · rw [List.any_eq_false] at hl ⊢
    intro x hx
    exact hl x (h.mem_iff.mp hx)
  · rw [List.any_eq_true] at hl ⊢
    obtain ⟨x, hx, hfx⟩ := hl
    exact ⟨x, h.mem_iff.mpr hx, hfx⟩

/-- C1: `ResolveService(path)` fails exactly when no currently-listed live
service matches `path`; when it returns a service, that service has at least
one route entry whose `Route` string is a prefix of `path`, and it belongs
to the flattened set of all matching listed services. -/
theorem ResolveService_spec (svcs : List Service) (path : String) (r : Nat) :
    (ResolveService svcs path r = none
        ↔ ∀ svc ∈ svcs, Service.Match svc path = false) ∧
    (∀ svc, ResolveService svcs path r = some svc →
        (∃ rt ∈ svc.Routes, hasPrefix path rt.Route = true) ∧
        svc ∈ svcs ∧
        svc ∈ svcs.filter (fun s => Service.Match s path)) := by
  unfold ResolveService
  by_cases hlen : (svcs.filter (fun svc => Service.Match svc path)).length > 0
  · have hidx : r % (svcs.filter (fun svc => Service.Match svc path)).length
        < (svcs.filter (fun svc => Service.Match svc path)).length :=
      Nat.mod_lt r hlen
    rw [if_pos hlen]
    constructor
    · rw [List.getElem?_eq_getElem hidx]
      constructor
      · intro h; exact absurd h (by simp)
      · intro hall
        exfalso
        have hmem := List.getElem_mem hidx
        rw [List.mem_filter] at hmem
        rw [hall _ hmem.1] at hmem
        exact Bool.false_ne_true hmem.2
    · intro svc hsome
      rw [List.getElem?_eq_getElem hidx, Option.some.injEq] at hsome
      have hmem := List.getElem_mem hidx
      rw [hsome] at hmem
      have hm := hmem
      rw [List.mem_filter] at hm
      have hmatch := hm.2
      rw [Service.Match, List.any_eq_true] at hmatch
      obtain ⟨rt, hrt, hpre⟩ := hmatch
      exact ⟨⟨rt, hrt, hpre⟩, hm.1, hmem⟩
  · rw [if_neg hlen]
    have hnil : svcs.filter (fun svc => Service.Match svc path) = [] := by
      rw [← List.length_eq_zero]
      omega
    constructor
    · constructor
      · intro _ svc hsvc
        by_contra hne
        have : svc ∈ svcs.filter (fun s => Service.Match s path) :=
          List.mem_filter.mpr ⟨hsvc, Bool.of_not_eq_false hne⟩
        rw [hnil] at this
        exact List.not_mem_nil svc this
      · intro _; rfl
    · intro svc hsome
      exact absurd hsome (by simp)

/-- C1 witness: on a store listing `svcAlpha` (route `"/a"`) and `svcBeta`
(routes `"/b"`, `"/b/long"`), resolving `"/a/x"` with `rand.Int() = 0`
returns `svcAlpha`, which has a matching route and lies in the match set. -/
theorem ResolveService_spec_witness :
    (∃ rt ∈ svcAlpha.Routes, hasPrefix "/a/x" rt.Route = true) ∧
    svcAlpha ∈ [svcAlpha, svcBeta] ∧
    svcAlpha ∈ [svcAlpha, svcBeta].filter (fun s => Service.Match s "/a/x") :=
  (ResolveService_spec [svcAlpha, svcBeta] "/a/x" 0).2 svcAlpha (by decide)

/-- C2: `RegisterService(name, port, routes, handler)` (with the freshly
generated id `svcId`) returns an error exactly when `(name, svcId)` already
exists in the local registry; otherwise it returns a service carrying the
given name, port and routes, and afterwards that service is present in the
registry under `(name, svcId)`. -/
theorem RegisterService_spec (s : Services) (name : String) (port : Int)
    (routes : ServiceRoutes) (svcId ipAddress : String) :
    ((∃ e, RegisterService s name port routes svcId ipAddress = Except.error e)
        ↔ serviceExists s name svcId = true) ∧
    (serviceExists s name svcId = false →
      ∃ svc, RegisterService s name port routes svcId ipAddress
          = Except.ok (svc, Services.Add s svc) ∧
        svc.Name = name ∧ svc.Port = port ∧ svc.Routes = routes ∧
        Services.lookup (Services.Add s svc) name svcId = some svc) := by
  by_cases h : serviceExists s name svcId
  · constructor
    · simp [RegisterService, h]
    · intro hfalse
      rw [hfalse] at h
      exact absurd h (by simp)
  · rw [Bool.not_eq_true] at h
    constructor
    · simp [RegisterService, h]
    · intro _
      refine ⟨{ Id := svcId, Name := name, IpAddress := ipAddress,
                Port := port, Routes := routes, LivenessChannel := none },
              ?_, rfl, rfl, rfl, ?_⟩
      · simp [RegisterService, h]
      · simp [Services.lookup, Services.Add]

/-- C2 witness: registering name `"alpha"`, port 80, one route, with fresh
id `"id1"`, on the empty registry succeeds and the service is afterwards
found under `("alpha", "id1")`. -/
theorem RegisterService_spec_witness :
    ∃ svc, RegisterService Services.empty "alpha" 80
        [{ Route := "/a", Handler := none }] "id1" "10.0.0.1"
        = Except.ok (svc, Services.Add Services.empty svc) ∧
      svc.Name = "alpha" ∧ svc.Port = 80 ∧
      svc.Routes = [{ Route := "/a", Handler := none }] ∧
      Services.lookup (Services.Add Services.empty svc) "alpha" "id1" = some svc :=
  (RegisterService_spec Services.empty "alpha" 80
    [{ Route := "/a", Handler := none }] "id1" "10.0.0.1").2 (by decide)

/-- C9: every service returned by a successful `RegisterService` has a nil
`LivenessChannel` (the field is never initialized at construction), and
`Services.Remove` applied to it hits the unguarded `close` of a nil channel
(a Go panic), before any registry deletion takes place. -/
theorem Remove_registered_nil_liveness (s : Services) (name : String)
    (port : Int) (routes : ServiceRoutes) (svcId ipAddress : String)
    (svc : Service) (s2 : Services)
    (h : RegisterService s name port routes svcId ipAddress
        = Except.ok (svc, s2)) :
    svc.LivenessChannel = none ∧
    Services.Remove s2 svc = Except.error "close of nil channel" := by
  unfold RegisterService at h
  split at h
  · exact absurd h (by simp)
  · rw [Except.ok.injEq, Prod.mk.injEq] at h
    obtain ⟨h1, _⟩ := h
    subst h1
    exact ⟨rfl, rfl⟩

/-- C9 witness: the concrete registration producing `svcAlpha` yields a nil
liveness channel, and removing it from the resulting registry panics on the
nil-channel close. -/
theorem Remove_registered_nil_liveness_witness :
    svcAlpha.LivenessChannel = none ∧
    Services.Remove (Services.Add Services.empty svcAlpha) svcAlpha
      = Except.error "close of nil channel" :=
  Remove_registered_nil_liveness Services.empty "alpha" 80
    [{ Route := "/a", Handler := none }] "id1" "10.0.0.1" svcAlpha
    (Services.Add Services.empty svcAlpha) rfl

/-- C10: `DeleteService(svc)` deletes the top-level registry entry keyed by
`svc.Id`, not by `svc.Name`: the entry under `svc.Id` is gone, every other
top-level entry is untouched, and whenever `svc.Id` is not among the
top-level names of the registry the registry is left entirely unchanged —
in particular the service stays registered under `(svc.Name, svc.Id)`. -/
theorem DeleteService_spec (s : Services) (svc : Service) :
    (DeleteService s svc) svc.Id = none ∧
    (∀ k, k ≠ svc.Id → (DeleteService s svc) k = s k) ∧
    (s svc.Id = none → DeleteService s svc = s) ∧
    (s svc.Id = none →
      Services.lookup (DeleteService s svc) svc.Name svc.Id
        = Services.lookup s svc.Name svc.Id) := by
  refine ⟨by simp [DeleteService], fun k hk => by simp [DeleteService, hk], ?_, ?_⟩
  · intro habs
    funext n
    unfold DeleteService
    split
    · rename_i hn
      rw [hn, habs]
    · rfl
  · intro habs
    simp only [Services.lookup, DeleteService]
    by_cases he : svc.Name = svc.Id
    · rw [if_pos he, he, habs]
    · rw [if_neg he]

/-- C10 witness: with the registry holding only `svcAlpha` under name
`"alpha"` and `svcAlpha.Id = "id1"` absent from the top level,
`DeleteService` removes nothing: the registry is unchanged, other keys are
untouched, and the service is still found under `("alpha", "id1")`. -/
theorem DeleteService_spec_witness :
    (DeleteService (Services.Add Services.empty svcAlpha) svcAlpha) svcAlpha.Id = none ∧
    (DeleteService (Services.Add Services.empty svcAlpha) svcAlpha) "alpha"
      = (Services.Add Services.empty svcAlpha) "alpha" ∧
    DeleteService (Services.Add Services.empty svcAlpha) svcAlpha
      = Services.Add Services.empty svcAlpha ∧
    Services.lookup (DeleteService (Services.Add Services.empty svcAlpha) svcAlpha)
        svcAlpha.Name svcAlpha.Id
      = Services.lookup (Services.Add Services.empty svcAlpha)
          svcAlpha.Name svcAlpha.Id :=
  ⟨(DeleteService_spec (Services.Add Services.empty svcAlpha) svcAlpha).1,
   (DeleteService_spec (Services.Add Services.empty svcAlpha) svcAlpha).2.1
     "alpha" (by decide),
   (DeleteService_spec (Services.Add Services.empty svcAlpha) svcAlpha).2.2.1 rfl,
   (DeleteService_spec (Services.Add Services.empty svcAlpha) svcAlpha).2.2.2 rfl⟩

/-- C8: `Service.Match(path)` holds exactly when some entry of the route
table has its `Route` string as a prefix of `path`; the result is invariant
under any permutation of the route table, in particular under the stable
sort induced by the (never applied) `ServiceRoutes.Less` comparator. -/
theorem Service_Match_spec (s : Service) (path : String) :
    (Service.Match s path = true
        ↔ ∃ rt ∈ s.Routes, hasPrefix path rt.Route = true) ∧
    (∀ routes2 : ServiceRoutes, routes2.Perm s.Routes →
        Service.Match { s with Routes := routes2 } path
          = Service.Match s path) ∧
    Service.Match { s with Routes := sortRoutes s.Routes } path
      = Service.Match s path := by
  refine ⟨by simp [Service.Match, List.any_eq_true], ?_, ?_⟩
  · intro routes2 hperm
    exact any_eq_of_perm _ hperm
  · exact any_eq_of_perm _ (List.mergeSort_perm s.Routes _)

/-- C8 witness: for `svcBeta` and path `"/b/long/x"`, `Match` holds with a
matching route, and reversing the two routes (a permutation, the order the
`Less` comparator would induce) leaves the result unchanged. -/
theorem Service_Match_spec_witness :
    (∃ rt ∈ svcBeta.Routes, hasPrefix "/b/long/x" rt.Route = true) ∧
    Service.Match
        { svcBeta with
          Routes := [{ Route := "/b/long", Handler := none },
                     { Route := "/b", Handler := none }] } "/b/long/x"
      = Service.Match svcBeta "/b/long/x" :=
  ⟨(Service_Match_spec svcBeta "/b/long/x").1.mp (by decide),
   (Service_Match_spec svcBeta "/b/long/x").2.1
     [{ Route := "/b/long", Handler := none },
      { Route := "/b", Handler := none }] (by decide)⟩

/-- Helper: `List.lookup` distributes over append as a left-biased `or`. -/
theorem lookup_append (k : String) (l1 l2 : List (String × JField)) :
    (l1 ++ l2).lookup k = ((l1.lookup k).or (l2.lookup k)) := by
  induction l1 with
  | nil => simp [List.lookup]
  | cons a t ih =>
    obtain ⟨k1, v⟩ := a
    by_cases h : k = k1
    · simp [List.lookup, h]
    · have hb : (k == k1) = false := beq_eq_false_iff_ne.mpr h
      simp [List.lookup, hb, ih]

/-- Helper: a conditional single-field segment has no binding for another
key. -/
theorem lookup_ifseg_ne (c : Prop) [Decidable c] (k k1 : String) (v : JField)
    (h : ¬ k = k1) :
    ((if c then [(k1, v)] else []) : List (String × JField)).lookup k
      = none := by
  have hb : (k == k1) = false := beq_eq_false_iff_ne.mpr h
  split <;> simp [List.lookup, hb]

/-- Helper: a conditional single-field segment binds its own key exactly when
the condition holds. -/
theorem lookup_ifseg_self (c : Prop) [Decidable c] (k1 : String) (v : JField) :
    ((if c then [(k1, v)] else []) : List (String × JField)).lookup k1
      = if c then some v else none := by
  split <;> simp [List.lookup]

/-- Helper: the payload segment has no binding for a key other than
`"payload"`. -/
theorem lookup_payloadseg_ne (p : Option String) (k : String)
    (h : ¬ k = "payload") :
    ((match p with
      | some s => [("payload", JField.jstr s)]
      | none => []) : List (String × JField)).lookup k = none := by
  have hb : (k == "payload") = false := beq_eq_false_iff_ne.mpr h
  cases p <;> simp [List.lookup, hb]

/-- Helper: the payload segment binds `"payload"` exactly when the payload is
present. -/
theorem lookup_payloadseg_self (p : Option String) :
    ((match p with
      | some s => [("payload", JField.jstr s)]
      | none => []) : List (String × JField)).lookup "payload"
      = match p with
        | some s => some (JField.jstr s)
        | none => none := by
  cases p <;> simp [List.lookup]

/-- Characterization of the serialized `timestamp` field. -/
theorem json_lookup_timestamp (m : Message) :
    (Message.Json m).lookup "timestamp"
      = if m.Timestamp ≠ 0 then some (JField.jint m.Timestamp) else none := by
  unfold Message.Json
  simp only [lookup_append, lookup_ifseg_self,
    lookup_ifseg_ne _ _ _ _ (by decide : ¬ "timestamp" = "msg_id"),
    lookup_ifseg_ne _ _ _ _ (by decide : ¬ "timestamp" = "response_channel"),
    lookup_ifseg_ne _ _ _ _ (by decide : ¬ "timestamp" = "channel"),
    lookup_ifseg_ne _ _ _ _ (by decide : ¬ "timestamp" = "route"),
    lookup_ifseg_ne _ _ _ _ (by decide : ¬ "timestamp" = "from"),
    lookup_ifseg_ne _ _ _ _ (by decide : ¬ "timestamp" = "to"),
    lookup_payloadseg_ne _ _ (by decide : ¬ "timestamp" = "payload"),
    Option.or_none, Option.none_or]

/-- Characterization of the serialized `msg_id` field. -/
theorem json_lookup_msgid (m : Message) :
    (Message.Json m).lookup "msg_id"
      = if m.MsgId ≠ "" then some (JField.jstr m.MsgId) else none := by
  unfold Message.Json
  simp only [lookup_append, lookup_ifseg_self,
    lookup_ifseg_ne _ _ _ _ (by decide : ¬ "msg_id" = "timestamp"),
    lookup_ifseg_ne _ _ _ _ (by decide : ¬ "msg_id" = "response_channel"),
    lookup_ifseg_ne _ _ _ _ (by decide : ¬ "msg_id" = "channel"),
    lookup_ifseg_ne _ _ _ _ (by decide : ¬ "msg_id" = "route"),
    lookup_ifseg_ne _ _ _ _ (by decide : ¬ "msg_id" = "from"),
    lookup_ifseg_ne _ _ _ _ (by decide : ¬ "msg_id" = "to"),
    lookup_payloadseg_ne _ _ (by decide : ¬ "msg_id" = "payload"),
    Option.or_none, Option.none_or]

/-- Characterization of the serialized `response_channel` field. -/
theorem json_lookup_response_channel (m : Message) :
    (Message.Json m).lookup "response_channel"
      = if m.ResponseChannel ≠ ""
        then some (JField.jstr m.ResponseChannel) else none := by
  unfold Message.Json
  simp only [lookup_append, lookup_ifseg_self,
    lookup_ifseg_ne _ _ _ _ (by decide : ¬ "response_channel" = "timestamp"),
    lookup_ifseg_ne _ _ _ _ (by decide : ¬ "response_channel" = "msg_id"),
    lookup_ifseg_ne _ _ _ _ (by decide : ¬ "response_channel" = "channel"),
    lookup_ifseg_ne _ _ _ _ (by decide : ¬ "response_channel" = "route"),
    lookup_ifseg_ne _ _ _ _ (by decide : ¬ "response_channel" = "from"),
    lookup_ifseg_ne _ _ _ _ (by decide : ¬ "response_channel" = "to"),
    lookup_payloadseg_ne _ _ (by decide : ¬ "response_channel" = "payload"),
    Option.or_none, Option.none_or]

/-- Characterization of the serialized `channel` field. -/
theorem json_lookup_channel (m : Message) :
    (Message.Json m).lookup "channel"
      = if m.Channel ≠ "" then some (JField.jstr m.Channel) else none := by
  unfold Message.Json
  simp only [lookup_append, lookup_ifseg_self,
    lookup_ifseg_ne _ _ _ _ (by decide : ¬ "channel" = "timestamp"),
    lookup_ifseg_ne _ _ _ _ (by decide : ¬ "channel" = "msg_id"),
    lookup_ifseg_ne _ _ _ _ (by decide : ¬ "channel" = "response_channel"),
    lookup_ifseg_ne _ _ _ _ (by decide : ¬ "channel" = "route"),
    lookup_ifseg_ne _ _ _ _ (by decide : ¬ "channel" = "from"),
    lookup_ifseg_ne _ _ _ _ (by decide : ¬ "channel" = "to"),
    lookup_payloadseg_ne _ _ (by decide : ¬ "channel" = "payload"),
    Option.or_none, Option.none_or]

/-- Characterization of the serialized `route` field. -/
theorem json_lookup_route (m : Message) :
    (Message.Json m).lookup "route"
      = if m.Route ≠ "" then some (JField.jstr m.Route) else none := by
  unfold Message.Json
  simp only [lookup_append, lookup_ifseg_self,
    lookup_ifseg_ne _ _ _ _ (by decide : ¬ "route" = "timestamp"),
    lookup_ifseg_ne _ _ _ _ (by decide : ¬ "route" = "msg_id"),
    lookup_ifseg_ne _ _ _ _ (by decide : ¬ "route" = "response_channel"),
    lookup_ifseg_ne _ _ _ _ (by decide : ¬ "route" = "channel"),
    lookup_ifseg_ne _ _ _ _ (by decide : ¬ "route" = "from"),
    lookup_ifseg_ne _ _ _ _ (by decide : ¬ "route" = "to"),
    lookup_payloadseg_ne _ _ (by decide : ¬ "route" = "payload"),
    Option.or_none, Option.none_or]

/-- Characterization of the serialized `from` field. -/
theorem json_lookup_from (m : Message) :
    (Message.Json m).lookup "from"
      = if m.From ≠ "" then some (JField.jstr m.From) else none := by
  unfold Message.Json
  simp only [lookup_append, lookup_ifseg_self,
    lookup_ifseg_ne _ _ _ _ (by decide : ¬ "from" = "timestamp"),
    lookup_ifseg_ne _ _ _ _ (by decide : ¬ "from" = "msg_id"),
    lookup_ifseg_ne _ _ _ _ (by decide : ¬ "from" = "response_channel"),
    lookup_ifseg_ne _ _ _ _ (by decide : ¬ "from" = "channel"),
    lookup_ifseg_ne _ _ _ _ (by decide : ¬ "from" = "route"),
    lookup_ifseg_ne _ _ _ _ (by decide : ¬ "from" = "to"),
    lookup_payloadseg_ne _ _ (by decide : ¬ "from" = "payload"),
    Option.or_none, Option.none_or]

/-- Characterization of the serialized `to` field. -/
theorem json_lookup_to (m : Message) :
    (Message.Json m).lookup "to"
      = if m.To ≠ "" then some (JField.jstr m.To) else none := by
  unfold Message.Json
  simp only [lookup_append, lookup_ifseg_self,
    lookup_ifseg_ne _ _ _ _ (by decide : ¬ "to" = "timestamp"),
    lookup_ifseg_ne _ _ _ _ (by decide : ¬ "to" = "msg_id"),
    lookup_ifseg_ne _ _ _ _ (by decide : ¬ "to" = "response_channel"),
    lookup_ifseg_ne _ _ _ _ (by decide : ¬ "to" = "channel"),
    lookup_ifseg_ne _ _ _ _ (by decide : ¬ "to" = "route"),
    lookup_ifseg_ne _ _ _ _ (by decide : ¬ "to" = "from"),
    lookup_payloadseg_ne _ _ (by decide : ¬ "to" = "payload"),
    Option.or_none, Option.none_or]

/-- Characterization of the serialized `payload` field. -/
theorem json_lookup_payload (m : Message) :
    (Message.Json m).lookup "payload"
      = match m.Payload with
        | some s => some (JField.jstr s)
        | none => none := by
  unfold Message.Json
  simp only [lookup_append, lookup_payloadseg_self,
    lookup_ifseg_ne _ _ _ _ (by decide : ¬ "payload" = "timestamp"),
    lookup_ifseg_ne _ _ _ _ (by decide : ¬ "payload" = "msg_id"),
    lookup_ifseg_ne _ _ _ _ (by decide : ¬ "payload" = "response_channel"),
    lookup_ifseg_ne _ _ _ _ (by decide : ¬ "payload" = "channel"),
    lookup_ifseg_ne _ _ _ _ (by decide : ¬ "payload" = "route"),
    lookup_ifseg_ne _ _ _ _ (by decide : ¬ "payload" = "from"),
    lookup_ifseg_ne _ _ _ _ (by decide : ¬ "payload" = "to"),
    Option.or_none, Option.none_or]

/-- C7: serializing a `Message` whose fields are all non-empty/non-zero and
deserializing the result reproduces the message exactly; each field that is
empty (or a zero timestamp, or a nil payload) is omitted from the serialized
object rather than emitted as null or empty. -/
theorem Message_Json_roundtrip (m : Message) :
    (m.Timestamp ≠ 0 → m.MsgId ≠ "" → m.ResponseChannel ≠ "" →
     m.Channel ≠ "" → m.Route ≠ "" → m.From ≠ "" → m.To ≠ "" →
     m.Payload ≠ none → jsonUnmarshal (Message.Json m) = m) ∧
    (m.Timestamp = 0 → (Message.Json m).lookup "timestamp" = none) ∧
    (m.MsgId = "" → (Message.Json m).lookup "msg_id" = none) ∧
    (m.ResponseChannel = "" →
      (Message.Json m).lookup "response_channel" = none) ∧
    (m.Channel = "" → (Message.Json m).lookup "channel" = none) ∧
    (m.Route = "" → (Message.Json m).lookup "route" = none) ∧
    (m.From = "" → (Message.Json m).lookup "from" = none) ∧
    (m.To = "" → (Message.Json m).lookup "to" = none) ∧
    (m.Payload = none → (Message.Json m).lookup "payload" = none) := by
  refine ⟨?_, ?_, ?_, ?_, ?_, ?_, ?_, ?_, ?_⟩
  · intro h1 h2 h3 h4 h5 h6 h7 h8
    obtain ⟨p, hp⟩ := Option.ne_none_iff_exists'.mp h8
    unfold jsonUnmarshal
    rw [json_lookup_timestamp, json_lookup_msgid, json_lookup_response_channel,
      json_lookup_channel, json_lookup_route, json_lookup_from,
      json_lookup_to, json_lookup_payload]
    rw [if_pos h1, if_pos h2, if_pos h3, if_pos h4, if_pos h5, if_pos h6,
      if_pos h7, hp]
    show ({ Timestamp := m.Timestamp, MsgId := m.MsgId,
            ResponseChannel := m.ResponseChannel, Channel := m.Channel,
            Route := m.Route, From := m.From, To := m.To,
            Payload := some p } : Message) = m
    rw [← hp]
  · intro h; rw [json_lookup_timestamp, if_neg (fun hc => hc h)]
  · intro h; rw [json_lookup_msgid, if_neg (fun hc => hc h)]
  · intro h; rw [json_lookup_response_channel, if_neg (fun hc => hc h)]
  · intro h; rw [json_lookup_channel, if_neg (fun hc => hc h)]
  · intro h; rw [json_lookup_route, if_neg (fun hc => hc h)]
  · intro h; rw [json_lookup_from, if_neg (fun hc => hc h)]
  · intro h; rw [json_lookup_to, if_neg (fun hc => hc h)]
  · intro h; rw [json_lookup_payload, h]

/-- C7 witness: the fully populated `msgFull` survives the round trip, and
on the all-zero `msgZero` every one of the eight fields is absent from the
serialized object. -/
theorem Message_Json_roundtrip_witness :
    jsonUnmarshal (Message.Json msgFull) = msgFull ∧
    (Message.Json msgZero).lookup "timestamp" = none ∧
    (Message.Json msgZero).lookup "msg_id" = none ∧
    (Message.Json msgZero).lookup "response_channel" = none ∧
    (Message.Json msgZero).lookup "channel" = none ∧
    (Message.Json msgZero).lookup "route" = none ∧
    (Message.Json msgZero).lookup "from" = none ∧
    (Message.Json msgZero).lookup "to" = none ∧
    (Message.Json msgZero).lookup "payload" = none :=
  ⟨(Message_Json_roundtrip msgFull).1 (by decide) (by decide) (by decide)
      (by decide) (by decide) (by decide) (by decide) (by decide),
   (Message_Json_roundtrip msgZero).2.1 rfl,
   (Message_Json_roundtrip msgZero).2.2.1 rfl,
   (Message_Json_roundtrip msgZero).2.2.2.1 rfl,
   (Message_Json_roundtrip msgZero).2.2.2.2.1 rfl,
   (Message_Json_roundtrip msgZero).2.2.2.2.2.1 rfl,
   (Message_Json_roundtrip msgZero).2.2.2.2.2.2.1 rfl,
   (Message_Json_roundtrip msgZero).2.2.2.2.2.2.2.1 rfl,
   (Message_Json_roundtrip msgZero).2.2.2.2.2.2.2.2 rfl⟩

end Morpheus
